import Mathlib

/-!
Verification development for the Specification-Compliance and Bug-Fix
Generation Engine of the ai-debug-assistant repository.

The repository ships the engine's documentation, its JSON/patch output
fixtures (src/test_output, src/test_fixes) and the React front end
(WelcomeScreen.tsx, Dashboard.tsx).  The front-end functions are embedded
directly from the TypeScript source.  The Python engine itself
(Comparator, BugClassifier, FixSynthesizer, RunSummary) is not part of the
source tree, so those operations are modelled from the specification and
checked against the bundled fixtures.
-/

/-- Bug severity domain, as in the spec (§3) and the fixture
`fixes_summary_20250717_093731.json`. -/
inductive Severity where
  | critical
  | major
  | minor
  | info
deriving DecidableEq, Repr

/-- Runtime-log entry level, as in the spec (§6, RuntimeLog input). -/
inductive LogLevel where
  | error
  | warning
deriving DecidableEq, Repr

/- ----------------------------------------------------------------- -/
/- Embedding of the bundled golden fixture
   src/test_output/spec_comparison_report.json                        -/
/- ----------------------------------------------------------------- -/

/-- One entry of `missing_features` in the comparison-report fixture.
The `method` field is present only on API-endpoint entries. -/
structure ReportMissingFeature where
  type : String
  name : String
  method : Option String
  description : String
  priority : String
  impact : String
deriving DecidableEq, Repr

/-- One entry of `deviations` in the comparison-report fixture.  The
configuration/implementation deviations carry a `feature` field, the
styling deviation a `component` field. -/
structure ReportDeviation where
  type : String
  feature : Option String
  component : Option String
  expected : String
  actual : String
  severity : String
  description : String
deriving DecidableEq, Repr

/-- One entry of `logical_mismatches` in the comparison-report fixture. -/
structure ReportMismatch where
  type : String
  flow : Option String
  requirement : Option String
  expected_direction : Option String
  actual_direction : Option String
  severity : String
  description : String
  impact : Option String
deriving DecidableEq, Repr

/-- One entry of `extra_features` in the comparison-report fixture. -/
structure ReportExtraFeature where
  type : String
  name : String
  description : String
  impact : String
  recommendation : String
deriving DecidableEq, Repr

/-- The `summary.severity_distribution` object of the report fixture. -/
structure ReportSeverityDistribution where
  critical : Nat
  high : Nat
  medium : Nat
  low : Nat
deriving DecidableEq, Repr

/-- The `summary` object of the comparison-report fixture. -/
structure ReportSummary where
  total_issues : Nat
  missing_features_count : Nat
  deviations_count : Nat
  logical_mismatches_count : Nat
  extra_features_count : Nat
  severity_distribution : ReportSeverityDistribution
  health_score : Rat
  overall_status : String
  recommendations : List String
deriving DecidableEq, Repr

/-- The `metadata` object of the comparison-report fixture. -/
structure ReportMetadata where
  comparison_timestamp : String
  enhanced_spec_features : Nat
  implemented_features : Nat
  comparison_version : String
deriving DecidableEq, Repr

/-- A ComparisonReport as serialized by the engine (spec §3, §6). -/
structure ComparisonReport where
  missing_features : List ReportMissingFeature
  deviations : List ReportDeviation
  logical_mismatches : List ReportMismatch
  extra_features : List ReportExtraFeature
  summary : ReportSummary
  metadata : ReportMetadata
deriving DecidableEq, Repr

/-- The bundled golden fixture
`src/test_output/spec_comparison_report.json`, embedded verbatim. -/
def specComparisonReport : ComparisonReport :=
  { missing_features :=
      [ { type := "core_feature"
        , name := "Real-time Notifications"
        , method := none
        , description := "Show progress and completion notifications"
        , priority := "medium"
        , impact := "high" }
      , { type := "ui_component"
        , name := "Progress Indicator"
        , method := none
        , description := "Show analysis progress"
        , priority := "medium"
        , impact := "medium" }
      , { type := "api_endpoint"
        , name := "/api/results"
        , method := some "GET"
        , description := "Get analysis results"
        , priority := "high"
        , impact := "high" } ]
  , deviations :=
      [ { type := "configuration_deviation"
        , feature := some "File Upload System"
        , component := none
        , expected := "configurable"
        , actual := "hardcoded"
        , severity := "medium"
        , description := "Feature should be configurable but is hardcoded" }
      , { type := "implementation_deviation"
        , feature := some "File Upload System"
        , component := none
        , expected := "drag_and_drop"
        , actual := "basic_form"
        , severity := "low"
        , description := "Different implementation approach used" }
      , { type := "styling_deviation"
        , feature := none
        , component := some "File Upload Zone"
        , expected := "tailwind"
        , actual := "css_modules"
        , severity := "low"
        , description := "Different styling approach used" } ]
  , logical_mismatches :=
      [ { type := "data_flow_mismatch"
        , flow := some "File Processing Flow"
        , requirement := none
        , expected_direction := some "upload -> analyze -> results"
        , actual_direction := some "upload -> process -> analyze"
        , severity := "high"
        , description := "Data flow direction mismatch"
        , impact := none }
      , { type := "security_requirement_missing"
        , flow := none
        , requirement := some "User Authentication"
        , expected_direction := none
        , actual_direction := none
        , severity := "critical"
        , description := "Require authentication for all operations"
        , impact := some "Security vulnerability" } ]
  , extra_features :=
      [ { type := "extra_feature"
        , name := "Extra Logging Feature"
        , description := "Additional logging not in spec"
        , impact := "low"
        , recommendation := "Consider if this feature adds value or should be removed" } ]
  , summary :=
      { total_issues := 8
      , missing_features_count := 3
      , deviations_count := 3
      , logical_mismatches_count := 2
      , extra_features_count := 1
      , severity_distribution := { critical := 1, high := 3, medium := 2, low := 2 }
      , health_score := 33.3
      , overall_status := "Critical Issues Found"
      , recommendations :=
          [ "Implement missing core features to meet specification requirements"
          , "Review and fix logical mismatches to ensure proper functionality"
          , "Address implementation deviations to align with specification" ] }
  , metadata :=
      { comparison_timestamp := "2025-07-17T09:24:28.305901"
      , enhanced_spec_features := 4
      , implemented_features := 4
      , comparison_version := "1.0" } }

/-- C1: for the bundled golden-fixture comparison run (3 missing features,
3 deviations, 2 logical mismatches of which 1 critical security and 1 high
data-flow, 1 extra feature), the produced ComparisonReport summary has
total_issues = 8, severity_distribution = critical 1 / high 3 / medium 2 /
low 2, overall_status "Critical Issues Found", and health_score 33.3. -/
theorem c1_golden_fixture_report_summary :
    specComparisonReport.missing_features.length = 3 ∧
    specComparisonReport.deviations.length = 3 ∧
    specComparisonReport.logical_mismatches.map (fun m => (m.type, m.severity)) =
      [("data_flow_mismatch", "high"), ("security_requirement_missing", "critical")] ∧
    specComparisonReport.extra_features.length = 1 ∧
    specComparisonReport.summary.total_issues = 8 ∧
    specComparisonReport.summary.severity_distribution =
      { critical := 1, high := 3, medium := 2, low := 2 } ∧
    specComparisonReport.summary.overall_status = "Critical Issues Found" ∧
    specComparisonReport.summary.health_score = 33.3 :=
  ⟨by decide, by decide, by decide, by decide, by decide, by decide, by decide, rfl⟩

/- ----------------------------------------------------------------- -/
/- Embedding of the bundled run fixture
   src/test_fixes/fixes_summary_20250717_093731.json                  -/
/- ----------------------------------------------------------------- -/

/-- One entry of `bugs` in the fixes-summary fixture. -/
structure FixtureBug where
  id : String
  title : String
  description : String
  severity : Severity
  file_path : String
  line_number : Option Nat
  category : String
  confidence : Rat
  has_fix : Bool
deriving DecidableEq, Repr

/-- One entry of `fixes` in the fixes-summary fixture. -/
structure FixtureFix where
  bug_id : String
  file_path : String
  start_line : Nat
  end_line : Nat
  lines_changed : Nat
deriving DecidableEq, Repr

/-- The severity histogram of a persisted RunSummary (spec §3, §4.6). -/
structure SeverityHistogram where
  critical : Nat
  major : Nat
  minor : Nat
  info : Nat
deriving DecidableEq, Repr

/-- A persisted RunSummary as serialized by the engine (spec §3, §4.6). -/
structure FixesRunSummary where
  timestamp : String
  total_bugs : Nat
  total_fixes : Nat
  bugs_by_severity : SeverityHistogram
  bugs : List FixtureBug
  fixes : List FixtureFix
deriving DecidableEq, Repr

/-- The bundled run fixture
`src/test_fixes/fixes_summary_20250717_093731.json`, embedded verbatim. -/
def fixesSummary : FixesRunSummary :=
  { timestamp := "20250717_093731"
  , total_bugs := 17
  , total_fixes := 8
  , bugs_by_severity := { critical := 3, major := 11, minor := 3, info := 0 }
  , bugs :=
      [ { id := "quality_6", title := "Code Quality: Security"
        , description := "Hardcoded API endpoint", severity := .critical
        , file_path := "src/api/auth.ts", line_number := some 23
        , category := "Code Quality", confidence := 0.6, has_fix := true }
      , { id := "log_error_11", title := "Runtime Error: API call failed..."
        , description := "API call failed", severity := .critical
        , file_path := "runtime", line_number := none
        , category := "Runtime Error", confidence := 0.9, has_fix := true }
      , { id := "ui_16", title := "UI Issue: Loading spinner stuck"
        , description := "UI problem detected at 5.0s", severity := .critical
        , file_path := "ui_component", line_number := none
        , category := "User Interface", confidence := 0.8, has_fix := true }
      , { id := "missing_0", title := "Missing Feature: User Authentication"
        , description := "Complete login and registration system with JWT tokens"
        , severity := .major
        , file_path := "src/components/Auth.tsx", line_number := none
        , category := "Missing Implementation", confidence := 0.8, has_fix := true }
      , { id := "missing_1", title := "Missing Feature: Real-time Notifications"
        , description := "WebSocket-based notification system", severity := .major
        , file_path := "src/services/notifications.ts", line_number := none
        , category := "Missing Implementation", confidence := 0.8, has_fix := true }
      , { id := "missing_2", title := "Missing Feature: Data Export Functionality"
        , description := "Export analysis results to PDF/CSV", severity := .major
        , file_path := "src/utils/export.ts", line_number := none
        , category := "Missing Implementation", confidence := 0.8, has_fix := true }
      , { id := "gap_3", title := "Implementation Gap: Dashboard"
        , description := "Missing data fetching logic", severity := .major
        , file_path := "src/components/Dashboard.tsx", line_number := some 45
        , category := "Implementation Gap", confidence := 0.7, has_fix := true }
      , { id := "gap_4", title := "Implementation Gap: BugReports"
        , description := "Incomplete error handling", severity := .major
        , file_path := "src/components/BugReports.tsx", line_number := some 78
        , category := "Implementation Gap", confidence := 0.7, has_fix := true }
      , { id := "gap_5", title := "Implementation Gap: CodeDiffViewer"
        , description := "Performance issue with large diffs", severity := .major
        , file_path := "src/components/CodeDiffViewer.tsx", line_number := some 123
        , category := "Implementation Gap", confidence := 0.7, has_fix := true }
      , { id := "quality_7", title := "Code Quality: Performance"
        , description := "Unnecessary re-renders", severity := .major
        , file_path := "src/components/AnalysisResults.tsx", line_number := some 67
        , category := "Code Quality", confidence := 0.6, has_fix := true }
      , { id := "log_error_12", title := "Runtime Error: Deprecated function used..."
        , description := "Deprecated function used", severity := .major
        , file_path := "runtime", line_number := none
        , category := "Runtime Error", confidence := 0.9, has_fix := true }
      , { id := "perf_13", title := "Performance Issue: Slow getUserData"
        , description := "Function getUserData is performing slowly", severity := .major
        , file_path := "performance", line_number := none
        , category := "Performance", confidence := 0.7, has_fix := true }
      , { id := "perf_14", title := "Performance Issue: Slow loadDashboard"
        , description := "Function loadDashboard is performing slowly", severity := .major
        , file_path := "performance", line_number := none
        , category := "Performance", confidence := 0.7, has_fix := true }
      , { id := "ui_15", title := "UI Issue: Button not responding"
        , description := "UI problem detected at 3.1s", severity := .major
        , file_path := "ui_component", line_number := none
        , category := "User Interface", confidence := 0.8, has_fix := true }
      , { id := "quality_8", title := "Code Quality: Code Quality"
        , description := "Unused import", severity := .minor
        , file_path := "src/utils/helpers.ts", line_number := some 34
        , category := "Code Quality", confidence := 0.6, has_fix := true }
      , { id := "quality_9", title := "Code Quality: Accessibility"
        , description := "Missing accessibility attributes", severity := .minor
        , file_path := "src/components/ProjectUpload.tsx", line_number := some 89
        , category := "Code Quality", confidence := 0.6, has_fix := true }
      , { id := "quality_10", title := "Code Quality: Error Handling"
        , description := "Unhandled promise rejection", severity := .minor
        , file_path := "src/services/api.ts", line_number := some 156
        , category := "Code Quality", confidence := 0.6, has_fix := true } ]
  , fixes :=
      [ { bug_id := "quality_6", file_path := "src/api/auth.ts"
        , start_line := 23, end_line := 24, lines_changed := 1 }
      , { bug_id := "gap_3", file_path := "src/components/Dashboard.tsx"
        , start_line := 45, end_line := 47, lines_changed := 6 }
      , { bug_id := "gap_4", file_path := "src/components/BugReports.tsx"
        , start_line := 78, end_line := 79, lines_changed := 9 }
      , { bug_id := "gap_5", file_path := "src/components/CodeDiffViewer.tsx"
        , start_line := 123, end_line := 124, lines_changed := 14 }
      , { bug_id := "quality_7", file_path := "src/components/AnalysisResults.tsx"
        , start_line := 67, end_line := 68, lines_changed := 1 }
      , { bug_id := "quality_8", file_path := "src/utils/helpers.ts"
        , start_line := 34, end_line := 35, lines_changed := 1 }
      , { bug_id := "quality_9", file_path := "src/components/ProjectUpload.tsx"
        , start_line := 89, end_line := 90, lines_changed := 1 }
      , { bug_id := "quality_10", file_path := "src/services/api.ts"
        , start_line := 156, end_line := 157, lines_changed := 1 } ] }

/- ----------------------------------------------------------------- -/
/- BugClassifier model (spec section 4.4)                             -/
/- ----------------------------------------------------------------- -/

/-- Modelled from the spec: one entry of the optional RuntimeLog input,
`errors: [\x7btimestamp, level, message\x7d]` (spec §6). -/
structure LogEntry where
  timestamp : String
  level : LogLevel
  message : String
deriving DecidableEq, Repr

/-- Modelled from the spec: the `performance` object of the RuntimeLog
input (spec §6). -/
structure RuntimePerformance where
  slow_queries : List String
  memory_leaks : List String
deriving DecidableEq, Repr

/-- Modelled from the spec: the optional RuntimeLog input (spec §6). -/
structure RuntimeLog where
  errors : List LogEntry
  performance : RuntimePerformance
deriving DecidableEq, Repr

/-- Modelled from the spec: one entry of `uiFlowTrace.ui_issues`
(spec §6). -/
structure UIIssue where
  issue : String
  severity : Severity
  timestamp : String
deriving DecidableEq, Repr

/-- Modelled from the spec: the optional UIFlowTrace input (spec §6);
`user_actions` plays no role in classification and is kept as raw
action names. -/
structure UIFlowTrace where
  user_actions : List String
  ui_issues : List UIIssue
deriving DecidableEq, Repr

/-- Modelled from the spec: a Missing-feature finding as consumed by
BugClassifier rule 1 (spec §4.4). -/
structure MissingFinding where
  name : String
  description : String
  file_path : Option String
deriving DecidableEq, Repr

/-- Modelled from the spec: a Deviation finding as consumed by
BugClassifier rule 2 (spec §4.4). -/
structure DeviationFinding where
  feature : String
  description : String
  file_path : Option String
  line_number : Option Nat
deriving DecidableEq, Repr

/-- Modelled from the spec: a Logical-Mismatch finding as consumed by
BugClassifier rule 2; it carries its own severity unchanged (spec §4.4). -/
structure MismatchFinding where
  name : String
  description : String
  severity : Severity
  file_path : Option String
  line_number : Option Nat
deriving DecidableEq, Repr

/-- Modelled from the spec: one pattern-scanning hit of BugClassifier
rule 3 (spec §4.4).  The spec describes the regex families only
qualitatively, so the scanner's hits (sub-pattern name, severity per
sub-rule, location) are taken as input. -/
structure QualityFinding where
  subtype : String
  description : String
  severity : Severity
  file_path : String
  line_number : Nat
deriving DecidableEq, Repr

/-- A Bug as produced by BugClassifier (spec §3): category-prefixed id,
severity, confidence, optional location.  The `ordinal` field records the
run-wide sequential counter from which the id is built. -/
structure CBug where
  id : String
  ordinal : Nat
  title : String
  description : String
  severity : Severity
  file_path : Option String
  line_number : Option Nat
  category : String
  confidence : Rat
deriving DecidableEq, Repr

/-- Modelled from the spec: severity of a Runtime-Error bug is derived
from the log entry's own `level` field, error→critical, warning→major
(spec §4.4 rule 4). -/
def levelSeverity : LogLevel → Severity
  | .error => .critical
  | .warning => .major

/-- Modelled from the spec: BugClassifier rule 1 — a Missing-feature
finding becomes a "Missing Implementation" bug, severity major,
confidence 0.8 (spec §4.4). -/
def mkMissingBug (n : Nat) (m : MissingFinding) : CBug :=
  { id := "missing_" ++ toString n, ordinal := n
  , title := "Missing Feature: " ++ m.name, description := m.description
  , severity := .major, file_path := m.file_path, line_number := none
  , category := "Missing Implementation", confidence := 0.8 }

/-- Modelled from the spec: BugClassifier rule 2 (Deviation) — an
"Implementation Gap" bug, confidence 0.7 (spec §4.4); severity major as
in the bundled fixture (bugs gap_3..gap_5). -/
def mkGapBug (n : Nat) (d : DeviationFinding) : CBug :=
  { id := "gap_" ++ toString n, ordinal := n
  , title := "Implementation Gap: " ++ d.feature, description := d.description
  , severity := .major, file_path := d.file_path, line_number := d.line_number
  , category := "Implementation Gap", confidence := 0.7 }

/-- Modelled from the spec: BugClassifier rule 2 (Logical Mismatch) —
carries its own severity unchanged, confidence 0.7 (spec §4.4). -/
def mkMismatchBug (n : Nat) (m : MismatchFinding) : CBug :=
  { id := "gap_" ++ toString n, ordinal := n
  , title := "Implementation Gap: " ++ m.name, description := m.description
  , severity := m.severity, file_path := m.file_path, line_number := m.line_number
  , category := "Implementation Gap", confidence := 0.7 }

/-- Modelled from the spec: BugClassifier rule 3 — a pattern-scanning hit
becomes a "Code Quality" bug with the sub-rule's severity, confidence 0.6
(spec §4.4). -/
def mkQualityBug (n : Nat) (q : QualityFinding) : CBug :=
  { id := "quality_" ++ toString n, ordinal := n
  , title := "Code Quality: " ++ q.subtype, description := q.description
  , severity := q.severity, file_path := some q.file_path
  , line_number := some q.line_number
  , category := "Code Quality", confidence := 0.6 }

/-- Modelled from the spec: BugClassifier rule 4 — each
`runtimeLog.errors[]` entry becomes one "Runtime Error" bug, severity
from the entry's own level, confidence 0.9 (spec §4.4); title and
location as in the bundled fixture (bugs log_error_11, log_error_12). -/
def mkLogErrorBug (n : Nat) (e : LogEntry) : CBug :=
  { id := "log_error_" ++ toString n, ordinal := n
  , title := "Runtime Error: " ++ e.message ++ "...", description := e.message
  , severity := levelSeverity e.level, file_path := some "runtime"
  , line_number := none
  , category := "Runtime Error", confidence := 0.9 }

/-- Modelled from the spec: BugClassifier rule 5 — each
`runtimeLog.performance.slow_queries[]` entry becomes one "Performance"
bug, severity major, confidence 0.7 (spec §4.4); title and description as
in the bundled fixture (bugs perf_13, perf_14). -/
def mkPerfBug (n : Nat) (q : String) : CBug :=
  { id := "perf_" ++ toString n, ordinal := n
  , title := "Performance Issue: Slow " ++ q
  , description := "Function " ++ q ++ " is performing slowly"
  , severity := .major, file_path := some "performance", line_number := none
  , category := "Performance", confidence := 0.7 }

/-- Modelled from the spec: BugClassifier rule 6 — each
`uiFlowTrace.ui_issues[]` entry becomes one "User Interface" bug with the
trace's own severity, confidence 0.8 (spec §4.4); title and description as
in the bundled fixture (bugs ui_15, ui_16). -/
def mkUIBug (n : Nat) (u : UIIssue) : CBug :=
  { id := "ui_" ++ toString n, ordinal := n
  , title := "UI Issue: " ++ u.issue
  , description := "UI problem detected at " ++ u.timestamp ++ "s"
  , severity := u.severity, file_path := some "ui_component", line_number := none
  , category := "User Interface", confidence := 0.8 }

/-- Maps a finding list to bugs while threading the run-wide id counter
(spec §4.4: "id ordinals are assigned sequentially across the whole run,
not per-source"). -/
def mapWithCounter (mk : Nat → α → CBug) : Nat → List α → List CBug
  | _, [] => []
  | n, a :: as => mk n a :: mapWithCounter mk (n + 1) as

/-- Modelled from the spec: BugClassifier.classify (spec §4.4) — applies
the six mapping rules in their fixed order, with one shared ordinal
counter over all sources. -/
def classify (missing : List MissingFinding) (deviations : List DeviationFinding)
    (mismatches : List MismatchFinding) (quality : List QualityFinding)
    (log : RuntimeLog) (trace : UIFlowTrace) : List CBug :=
  let n1 := missing.length
  let n2 := n1 + deviations.length
  let n3 := n2 + mismatches.length
  let n4 := n3 + quality.length
  let n5 := n4 + log.errors.length
  let n6 := n5 + log.performance.slow_queries.length
  mapWithCounter mkMissingBug 0 missing ++
  (mapWithCounter mkGapBug n1 deviations ++
  (mapWithCounter mkMismatchBug n2 mismatches ++
  (mapWithCounter mkQualityBug n3 quality ++
  (mapWithCounter mkLogErrorBug n4 log.errors ++
  (mapWithCounter mkPerfBug n5 log.performance.slow_queries ++
  mapWithCounter mkUIBug n6 trace.ui_issues)))))

/- ----------------------------------------------------------------- -/
/- FixSynthesizer model (spec section 4.5)                            -/
/- ----------------------------------------------------------------- -/

/-- A Fix as produced by FixSynthesizer (spec §3): owning bug id, file
path, line range, original and replacement snippets (as lines), and
review status. -/
structure SynthFix where
  bug_id : String
  file_path : String
  start_line : Nat
  end_line : Nat
  original : List String
  replacement : List String
  status : String
deriving DecidableEq, Repr

/-- Modelled from the spec: a before/after snippet template keyed by bug
category (spec §4.5 "fixed before/after code snippets").  The concrete
snippet text is template data, so the table is a parameter of the model. -/
structure FixTemplate where
  original : List String
  replacement : List String
deriving DecidableEq, Repr

/-- Modelled from the spec: FixSynthesizer.synthesize (spec §4.5) —
returns none when the bug's category has no template (expected, not an
error); otherwise a Fix owned by the bug, with status initialized to
pending. -/
def synthesize (templates : String → Option FixTemplate) (b : CBug) : Option SynthFix :=
  match templates b.category with
  | none => none
  | some t =>
      some { bug_id := b.id
           , file_path := b.file_path.getD b.category
           , start_line := b.line_number.getD 1
           , end_line := b.line_number.getD 1 + t.original.length
           , original := t.original
           , replacement := t.replacement
           , status := "pending" }

/-- Modelled from the spec: `lines_changed` = count of replacement lines
(spec §4.5). -/
def linesChanged (f : SynthFix) : Nat := f.replacement.length

/-- Renders one range of a unified-diff hunk header: the count is omitted
when it is 1, as in the bundled patch files ("@@ -1 +1,14 @@"). -/
def hunkRange (n : Nat) : String :=
  if n == 1 then "1" else "1," ++ toString n

/-- Modelled from the spec: the unified-diff rendering of a Fix
(spec §4.5) — a header naming the file and the start_line-end_line range,
followed by one "-" line per line of the original snippet and one "+"
line per line of the replacement snippet, in the layout of the bundled
patch files (src/test_fixes). -/
def renderDiff (f : SynthFix) : List String :=
  [ "# Bug Fix: " ++ f.bug_id
  , "# File: " ++ f.file_path
  , "# Lines: " ++ toString f.start_line ++ "-" ++ toString f.end_line
  , ""
  , "--- a/" ++ f.file_path
  , "+++ b/" ++ f.file_path
  , "@@ -" ++ hunkRange f.original.length ++ " +" ++ hunkRange f.replacement.length ++ " @@" ]
  ++ f.original.map (fun l => "-" ++ l)
  ++ f.replacement.map (fun l => "+" ++ l)

/-- The Fix behind the bundled patch `src/test_fixes/gap_5_*.patch`:
original and replacement snippets exactly as in that file. -/
def gap5Fix : SynthFix :=
  { bug_id := "gap_5"
  , file_path := "src/components/CodeDiffViewer.tsx"
  , start_line := 123
  , end_line := 124
  , original :=
      [ "diffs.map((diff, index) => <DiffLine key=\x7bindex\x7d diff=\x7bdiff\x7d />)" ]
  , replacement :=
      [ "import \x7b FixedSizeList as List \x7d from \x27react-window\x27;"
      , ""
      , "<List"
      , "  height=\x7b400\x7d"
      , "  itemCount=\x7bdiffs.length\x7d"
      , "  itemSize=\x7b25\x7d"
      , "  itemData=\x7bdiffs\x7d"
      , ">"
      , "  \x7b(\x7b index, style, data \x7d) => ("
      , "    <div style=\x7bstyle\x7d>"
      , "      <DiffLine diff=\x7bdata[index]\x7d />"
      , "    </div>"
      , "  )\x7d"
      , "</List>" ]
  , status := "pending" }

/-- The bundled patch file `src/test_fixes/gap_5_20250717_093731.patch`,
embedded verbatim as its list of lines. -/
def gap5PatchLines : List String :=
  [ "# Bug Fix: gap_5"
  , "# File: src/components/CodeDiffViewer.tsx"
  , "# Lines: 123-124"
  , ""
  , "--- a/src/components/CodeDiffViewer.tsx"
  , "+++ b/src/components/CodeDiffViewer.tsx"
  , "@@ -1 +1,14 @@"
  , "-diffs.map((diff, index) => <DiffLine key=\x7bindex\x7d diff=\x7bdiff\x7d />)"
  , "+import \x7b FixedSizeList as List \x7d from \x27react-window\x27;"
  , "+"
  , "+<List"
  , "+  height=\x7b400\x7d"
  , "+  itemCount=\x7bdiffs.length\x7d"
  , "+  itemSize=\x7b25\x7d"
  , "+  itemData=\x7bdiffs\x7d"
  , "+>"
  , "+  \x7b(\x7b index, style, data \x7d) => ("
  , "+    <div style=\x7bstyle\x7d>"
  , "+      <DiffLine diff=\x7bdata[index]\x7d />"
  , "+    </div>"
  , "+  )\x7d"
  , "+</List>" ]

/- ----------------------------------------------------------------- -/
/- RunSummary model (spec section 4.6)                                -/
/- ----------------------------------------------------------------- -/

/-- Modelled from the spec: the `bugs_by_severity` histogram of a
RunSummary counts the bugs of each severity (spec §4.6). -/
def severityHist (sevs : List Severity) : SeverityHistogram :=
  { critical := sevs.countP (· == .critical)
  , major := sevs.countP (· == .major)
  , minor := sevs.countP (· == .minor)
  , info := sevs.countP (· == .info) }

/-- Sum of the four severity-histogram buckets. -/
def histSum (h : SeverityHistogram) : Nat :=
  h.critical + h.major + h.minor + h.info

/-- A RunSummary over pipeline values before serialization (spec §3,
§4.6). -/
structure PipelineRunSummary where
  timestamp : String
  total_bugs : Nat
  total_fixes : Nat
  bugs_by_severity : SeverityHistogram
  bugs : List CBug
  fixes : List SynthFix
deriving Repr

/-- Modelled from the spec: RunSummary aggregation (spec §4.6) — pure
counting over the Bug and Fix lists, both passed through unmodified. -/
def mkRunSummary (ts : String) (bugs : List CBug) (fixes : List SynthFix) :
    PipelineRunSummary :=
  { timestamp := ts
  , total_bugs := bugs.length
  , total_fixes := fixes.length
  , bugs_by_severity := severityHist (bugs.map (·.severity))
  , bugs := bugs
  , fixes := fixes }

/- ----------------------------------------------------------------- -/
/- Front-end model, embedded from src/src/components/WelcomeScreen.tsx
   (ProjectUpload component) and src/src/components/Dashboard.tsx      -/
/- ----------------------------------------------------------------- -/

/-- The `UploadedFile` interface of WelcomeScreen.tsx. -/
structure UploadedFile where
  id : String
  name : String
  type : String
  size : Nat
  status : String
  url : Option String
deriving DecidableEq, Repr

/-- One bug literal of the `analysisResult` in ProjectUpload.startAnalysis. -/
structure UIBug where
  id : String
  severity : String
  title : String
  description : String
  file : String
  line : Nat
  suggestion : String
deriving DecidableEq, Repr

/-- One fix literal of the `analysisResult` in ProjectUpload.startAnalysis. -/
structure UIFix where
  id : String
  bugId : String
  title : String
  description : String
  file : String
  originalCode : String
  fixedCode : String
  explanation : String
  status : String
  confidence : Nat
  impact : String
deriving DecidableEq, Repr

/-- `originalCode` of fix-1 in ProjectUpload.startAnalysis, verbatim. -/
def fix1OriginalCode : String :=
  String.intercalate "\n"
    [ "const handleLogin = async (email, password) => \x7b"
    , "  const response = await fetch(\x27/api/login\x27, \x7b"
    , "    method: \x27POST\x27,"
    , "    body: JSON.stringify(\x7b email, password \x7d)"
    , "  \x7d)"
    , "  "
    , "  if (response.ok) \x7b"
    , "    const user = await response.json()"
    , "    setUser(user)"
    , "  \x7d"
    , "\x7d" ]

/-- `fixedCode` of fix-1 in ProjectUpload.startAnalysis, verbatim. -/
def fix1FixedCode : String :=
  String.intercalate "\n"
    [ "const [errors, setErrors] = useState(\x7b\x7d)"
    , "const [isLoading, setIsLoading] = useState(false)"
    , ""
    , "const validateForm = (email, password) => \x7b"
    , "  const newErrors = \x7b\x7d"
    , "  if (!email) newErrors.email = \x27Email is required\x27"
    , "  if (!email.includes(\x27@\x27)) newErrors.email = \x27Invalid email format\x27"
    , "  if (!password) newErrors.password = \x27Password is required\x27"
    , "  if (password.length < 6) newErrors.password = \x27Password must be at least 6 characters\x27"
    , "  return newErrors"
    , "\x7d"
    , ""
    , "const handleLogin = async (email, password) => \x7b"
    , "  const validationErrors = validateForm(email, password)"
    , "  if (Object.keys(validationErrors).length > 0) \x7b"
    , "    setErrors(validationErrors)"
    , "    return"
    , "  \x7d"
    , "  "
    , "  setIsLoading(true)"
    , "  setErrors(\x7b\x7d)"
    , "  "
    , "  try \x7b"
    , "    const response = await fetch(\x27/api/login\x27, \x7b"
    , "      method: \x27POST\x27,"
    , "      headers: \x7b \x27Content-Type\x27: \x27application/json\x27 \x7d,"
    , "      body: JSON.stringify(\x7b email, password \x7d)"
    , "    \x7d)"
    , "    "
    , "    if (response.ok) \x7b"
    , "      const user = await response.json()"
    , "      setUser(user)"
    , "    \x7d else \x7b"
    , "      const error = await response.json()"
    , "      setErrors(\x7b general: error.message || \x27Login failed\x27 \x7d)"
    , "    \x7d"
    , "  \x7d catch (error) \x7b"
    , "    setErrors(\x7b general: \x27Network error. Please try again.\x27 \x7d)"
    , "  \x7d finally \x7b"
    , "    setIsLoading(false)"
    , "  \x7d"
    , "\x7d" ]

/-- `originalCode` of fix-2 in ProjectUpload.startAnalysis, verbatim. -/
def fix2OriginalCode : String :=
  String.intercalate "\n"
    [ "const fetchUserData = async () => \x7b"
    , "  const response = await fetch(\x27/api/user\x27)"
    , "  const userData = await response.json()"
    , "  setUserData(userData)"
    , "\x7d"
    , ""
    , "useEffect(() => \x7b"
    , "  fetchUserData()"
    , "\x7d, [])" ]

/-- `fixedCode` of fix-2 in ProjectUpload.startAnalysis, verbatim. -/
def fix2FixedCode : String :=
  String.intercalate "\n"
    [ "const [loading, setLoading] = useState(true)"
    , "const [error, setError] = useState(null)"
    , ""
    , "const fetchUserData = async () => \x7b"
    , "  try \x7b"
    , "    setLoading(true)"
    , "    setError(null)"
    , "    "
    , "    const response = await fetch(\x27/api/user\x27)"
    , "    "
    , "    if (!response.ok) \x7b"
    , "      throw new Error(\x60HTTP error! status: $\x7bresponse.status\x7d\x60)"
    , "    \x7d"
    , "    "
    , "    const userData = await response.json()"
    , "    setUserData(userData)"
    , "  \x7d catch (err) \x7b"
    , "    setError(err.message || \x27Failed to fetch user data\x27)"
    , "    console.error(\x27Error fetching user data:\x27, err)"
    , "  \x7d finally \x7b"
    , "    setLoading(false)"
    , "  \x7d"
    , "\x7d"
    , ""
    , "const retryFetch = () => \x7b"
    , "  fetchUserData()"
    , "\x7d"
    , ""
    , "useEffect(() => \x7b"
    , "  fetchUserData()"
    , "\x7d, [])" ]

/-- The hard-coded `bugs` list of `analysisResult` in
ProjectUpload.startAnalysis, verbatim. -/
def analysisBugs : List UIBug :=
  [ { id := "bug-1", severity := "high"
    , title := "Authentication Flow Incomplete"
    , description := "The login component is missing proper error handling and validation."
    , file := "src/components/Login.tsx", line := 45
    , suggestion := "Add form validation and error state management" }
  , { id := "bug-2", severity := "medium"
    , title := "API Response Not Handled"
    , description := "Missing error handling for API responses in user dashboard."
    , file := "src/pages/Dashboard.tsx", line := 23
    , suggestion := "Implement try-catch blocks and loading states" }
  , { id := "bug-3", severity := "low"
    , title := "Accessibility Issues"
    , description := "Missing ARIA labels and keyboard navigation support."
    , file := "src/components/Navigation.tsx", line := 12
    , suggestion := "Add proper ARIA attributes and keyboard event handlers" } ]

/-- The hard-coded `fixes` list of `analysisResult` in
ProjectUpload.startAnalysis, verbatim. -/
def analysisFixes : List UIFix :=
  [ { id := "fix-1", bugId := "bug-1"
    , title := "Add Authentication Validation"
    , description := "Implement comprehensive form validation and error handling for the login component"
    , file := "src/components/Login.tsx"
    , originalCode := fix1OriginalCode
    , fixedCode := fix1FixedCode
    , explanation := "Added form validation, loading states, error handling, and proper HTTP headers. This prevents users from submitting invalid data and provides clear feedback."
    , status := "pending", confidence := 95, impact := "high" }
  , { id := "fix-2", bugId := "bug-2"
    , title := "Add API Error Handling"
    , description := "Implement proper error handling and loading states for API calls in the dashboard"
    , file := "src/pages/Dashboard.tsx"
    , originalCode := fix2OriginalCode
    , fixedCode := fix2FixedCode
    , explanation := "Added comprehensive error handling, loading states, and retry functionality. This prevents crashes and provides better user experience."
    , status := "pending", confidence := 88, impact := "medium" } ]

/-- The `files` object of `analysisResult`: uploaded files split by type. -/
structure AnalysisFiles where
  code : List UploadedFile
  video : List UploadedFile
  logs : List UploadedFile
deriving DecidableEq, Repr

/-- The `analysisResult` object built by ProjectUpload.startAnalysis. -/
structure AnalysisResult where
  id : String
  timestamp : String
  originalSpec : String
  enhancedSpec : String
  files : AnalysisFiles
  bugs : List UIBug
  fixes : List UIFix
deriving DecidableEq, Repr

/-- A notification as passed to `onNotification` in WelcomeScreen.tsx. -/
structure Notification where
  type : String
  title : String
  message : String
  duration : Nat
deriving DecidableEq, Repr

/-- The `analysisResult` value constructed by ProjectUpload.startAnalysis
once the early-return guard has passed.  `now` stands for `Date.now()`
and `nowISO` for `new Date().toISOString()`; `enhancedSpec` is the state
value captured by the closure (the JS expression
`enhancedSpec || ...` falls back to the placeholder when it is empty). -/
def mkAnalysisResult (originalSpec enhancedSpec : String)
    (uploadedFiles : List UploadedFile) (now : Nat) (nowISO : String) :
    AnalysisResult :=
  { id := "analysis-" ++ toString now
  , timestamp := nowISO
  , originalSpec := originalSpec
  , enhancedSpec :=
      if enhancedSpec == "" then "Spec enhancement in progress..." else enhancedSpec
  , files :=
      { code := uploadedFiles.filter (fun f => f.type == "code" && f.status == "uploaded")
      , video := uploadedFiles.filter (fun f => f.type == "video" && f.status == "uploaded")
      , logs := uploadedFiles.filter (fun f => f.type == "logs" && f.status == "uploaded") }
  , bugs := analysisBugs
  , fixes := analysisFixes }

/-- Observable outcome of one ProjectUpload.startAnalysis invocation: the
value passed to `onAnalysisComplete` (if any) and the notifications
emitted. -/
structure StartAnalysisOutcome where
  result : Option AnalysisResult
  notifications : List Notification
deriving DecidableEq, Repr

/-- ProjectUpload.startAnalysis, embedded from WelcomeScreen.tsx: returns
immediately when `!originalSpec.trim() || uploadedFiles.length === 0`
(the string `originalSpec.trim()` is falsy exactly when every character
of `originalSpec` is whitespace); otherwise builds the hard-coded
`analysisResult`, passes it to `onAnalysisComplete` and emits the success
notification. -/
def startAnalysis (originalSpec enhancedSpec : String)
    (uploadedFiles : List UploadedFile) (now : Nat) (nowISO : String) :
    StartAnalysisOutcome :=
  if originalSpec.data.all (fun c => c.isWhitespace) || uploadedFiles.length == 0 then
    { result := none, notifications := [] }
  else
    let r := mkAnalysisResult originalSpec enhancedSpec uploadedFiles now nowISO
    { result := some r
    , notifications :=
        [ { type := "success"
          , title := "Analysis Complete!"
          , message := "Found " ++ toString r.bugs.length ++
              " issues and generated " ++ toString r.fixes.length ++ " fixes."
          , duration := 5000 } ] }

/-- Erases the two clock-derived fields of an analysis result. -/
def stripRunId (r : AnalysisResult) : AnalysisResult :=
  { r with id := "", timestamp := "" }

/-- Dashboard.handleApplyFix, embedded from Dashboard.tsx: when analysis
data is present, map over its fixes and set the status of the fix whose
id matches to "applied" (the handler also emits a UI notification, not
modelled here). -/
def handleApplyFix (fixId : String) (analysisData : Option AnalysisResult) :
    Option AnalysisResult :=
  match analysisData with
  | none => none
  | some d =>
      some { d with
        fixes := d.fixes.map (fun f =>
          if f.id == fixId then { f with status := "applied" } else f) }

/-- Dashboard.handleRejectFix, embedded from Dashboard.tsx: when analysis
data is present, map over its fixes and set the status of the fix whose
id matches to "rejected". -/
def handleRejectFix (fixId : String) (analysisData : Option AnalysisResult) :
    Option AnalysisResult :=
  match analysisData with
  | none => none
  | some d =>
      some { d with
        fixes := d.fixes.map (fun f =>
          if f.id == fixId then { f with status := "rejected" } else f) }

/- ----------------------------------------------------------------- -/
/- Helper lemmas                                                      -/
/- ----------------------------------------------------------------- -/

/-- The counter-threading map preserves length. -/
theorem mapWithCounter_length (mk : Nat → α → CBug) (n : Nat) (l : List α) :
    (mapWithCounter mk n l).length = l.length := by
  induction l generalizing n with
  | nil => rfl
  | cons a as ih => simp [mapWithCounter, ih]

/-- If the builder records the counter in the `ordinal` field, the
counter-threading map assigns the consecutive ordinals n, n+1, …. -/
theorem mapWithCounter_map_ordinal (mk : Nat → α → CBug)
    (h : ∀ n a, (mk n a).ordinal = n) (n : Nat) (l : List α) :
    (mapWithCounter mk n l).map (fun b => b.ordinal) = List.range' n l.length := by
  induction l generalizing n with
  | nil => rfl
  | cons a as ih => simp [mapWithCounter, h, ih, List.range'_succ]

/-- Concatenation step for `mapWithCounter_map_ordinal`. -/
theorem mapWithCounter_ord_concat (mk : Nat → α → CBug)
    (h : ∀ n a, (mk n a).ordinal = n) (n : Nat) (l : List α)
    (rest : List CBug) (m : Nat)
    (hrest : rest.map (fun b => b.ordinal) = List.range' (n + l.length) m) :
    ((mapWithCounter mk n l) ++ rest).map (fun b => b.ordinal) =
      List.range' n (l.length + m) := by
  rw [List.map_append, mapWithCounter_map_ordinal mk h, hrest, List.range'_append_1,
    Nat.add_comm]

/-- A segment whose bugs all fail the filter contributes nothing. -/
theorem filter_mapWithCounter_neg (mk : Nat → α → CBug) (p : CBug → Bool)
    (h : ∀ n a, p (mk n a) = false) (n : Nat) (l : List α) :
    (mapWithCounter mk n l).filter p = [] := by
  induction l generalizing n with
  | nil => rfl
  | cons a as ih => simp [mapWithCounter, List.filter_cons, h, ih]

/-- A segment whose bugs all pass the filter is kept whole. -/
theorem filter_mapWithCounter_pos (mk : Nat → α → CBug) (p : CBug → Bool)
    (h : ∀ n a, p (mk n a) = true) (n : Nat) (l : List α) :
    (mapWithCounter mk n l).filter p = mapWithCounter mk n l := by
  induction l generalizing n with
  | nil => rfl
  | cons a as ih => simp [mapWithCounter, List.filter_cons, h, ih]

/-- The four severity-histogram buckets sum to the number of bugs. -/
theorem histSum_severityHist (l : List Severity) :
    histSum (severityHist l) = l.length := by
  induction l with
  | nil => rfl
  | cons s t ih =>
    cases s <;>
      simp [severityHist, histSum, List.countP_cons] at ih ⊢ <;>
      omega

/-- Synthesized fixes inherit their owning bug's id, in order: the list of
fix bug_ids is a sublist of the list of bug ids. -/
theorem synthesize_bugIds_sublist (templates : String → Option FixTemplate) :
    ∀ bugs : List CBug,
      List.Sublist ((bugs.filterMap (synthesize templates)).map (fun f => f.bug_id))
        (bugs.map (fun b => b.id)) := by
  intro bugs
  induction bugs with
  | nil => simp
  | cons b bs ih =>
    simp only [List.filterMap_cons]
    cases hs : synthesize templates b with
    | none =>
      simp only [List.map_cons]
      exact ih.cons _
    | some f =>
      have hid : f.bug_id = b.id := by
        unfold synthesize at hs
        cases ht : templates b.category with
        | none => rw [ht] at hs; cases hs
        | some t => rw [ht] at hs; cases hs; rfl
      simp only [List.map_cons, hid]
      exact ih.cons₂ _

/-- C3: for every RunSummary produced by the pipeline, the sum of the
`bugs_by_severity` histogram equals `total_bugs`; the bundled run fixture
also satisfies it (3 + 11 + 3 + 0 = 17). -/
theorem c3_severity_histogram_sums_to_total :
    (∀ (ts : String) (bugs : List CBug) (fixes : List SynthFix),
      histSum (mkRunSummary ts bugs fixes).bugs_by_severity =
        (mkRunSummary ts bugs fixes).total_bugs) ∧
    severityHist (fixesSummary.bugs.map (fun b => b.severity)) =
      fixesSummary.bugs_by_severity ∧
    histSum fixesSummary.bugs_by_severity = fixesSummary.total_bugs := by
  refine ⟨?_, by decide, by decide⟩
  intro ts bugs fixes
  simpa [mkRunSummary] using histSum_severityHist (bugs.map (fun b => b.severity))

/-- Extracts the numeric ordinal suffix of a category-prefixed bug id
such as "log_error_11". -/
def bugIdOrdinal (s : String) : Nat :=
  ((s.data.reverse.takeWhile (fun c => c.isDigit)).reverse).foldl
    (fun acc c => acc * 10 + (c.toNat - 48)) 0

/-- C7: bug ids are category-prefixed and their ordinals are assigned by
one counter shared across the whole classification run, so the ordinals
of one run's bugs form one consecutive sequence; the 17 bugs of the
bundled run fixture carry exactly the ordinals 0..16. -/
theorem c7_bug_id_ordinals_sequential :
    (∀ (missing : List MissingFinding) (deviations : List DeviationFinding)
        (mismatches : List MismatchFinding) (quality : List QualityFinding)
        (log : RuntimeLog) (trace : UIFlowTrace),
      (classify missing deviations mismatches quality log trace).map
          (fun b => b.ordinal) =
        List.range (missing.length + deviations.length + mismatches.length +
          quality.length + log.errors.length +
          log.performance.slow_queries.length + trace.ui_issues.length)) ∧
    (∀ (n : Nat) (m : MissingFinding),
      (mkMissingBug n m).id = "missing_" ++ toString n ∧ (mkMissingBug n m).ordinal = n) ∧
    (∀ (n : Nat) (d : DeviationFinding),
      (mkGapBug n d).id = "gap_" ++ toString n ∧ (mkGapBug n d).ordinal = n) ∧
    (∀ (n : Nat) (m : MismatchFinding),
      (mkMismatchBug n m).id = "gap_" ++ toString n ∧ (mkMismatchBug n m).ordinal = n) ∧
    (∀ (n : Nat) (q : QualityFinding),
      (mkQualityBug n q).id = "quality_" ++ toString n ∧ (mkQualityBug n q).ordinal = n) ∧
    (∀ (n : Nat) (e : LogEntry),
      (mkLogErrorBug n e).id = "log_error_" ++ toString n ∧ (mkLogErrorBug n e).ordinal = n) ∧
    (∀ (n : Nat) (s : String),
      (mkPerfBug n s).id = "perf_" ++ toString n ∧ (mkPerfBug n s).ordinal = n) ∧
    (∀ (n : Nat) (u : UIIssue),
      (mkUIBug n u).id = "ui_" ++ toString n ∧ (mkUIBug n u).ordinal = n) ∧
    ((fixesSummary.bugs.map (fun b => bugIdOrdinal b.id)).length = 17 ∧
     (fixesSummary.bugs.map (fun b => bugIdOrdinal b.id)).Nodup ∧
     (List.range 17).all
        (fun k => (fixesSummary.bugs.map (fun b => bugIdOrdinal b.id)).contains k) = true) := by
  refine ⟨?_, fun n m => ⟨rfl, rfl⟩, fun n d => ⟨rfl, rfl⟩, fun n m => ⟨rfl, rfl⟩,
    fun n q => ⟨rfl, rfl⟩, fun n e => ⟨rfl, rfl⟩, fun n s => ⟨rfl, rfl⟩,
    fun n u => ⟨rfl, rfl⟩, by decide, by decide, by decide⟩
  intro missing deviations mismatches quality log trace
  rw [List.range_eq_range']
  have htot : missing.length + deviations.length + mismatches.length +
      quality.length + log.errors.length + log.performance.slow_queries.length +
      trace.ui_issues.length =
      missing.length + (deviations.length + (mismatches.length + (quality.length +
        (log.errors.length + (log.performance.slow_queries.length +
          trace.ui_issues.length))))) := by omega
  rw [htot]
  simp only [classify]
  apply mapWithCounter_ord_concat _ (fun n a => rfl)
  simp only [Nat.zero_add]
  apply mapWithCounter_ord_concat _ (fun n a => rfl)
  apply mapWithCounter_ord_concat _ (fun n a => rfl)
  apply mapWithCounter_ord_concat _ (fun n a => rfl)
  apply mapWithCounter_ord_concat _ (fun n a => rfl)
  apply mapWithCounter_ord_concat _ (fun n a => rfl)
  exact mapWithCounter_map_ordinal _ (fun n a => rfl) _ _

/-- C8: classification maps every `runtimeLog.errors[]` entry to exactly
one Bug of category "Runtime Error" with confidence 0.9 and severity
derived from the entry's own level (error→critical, warning→major); the
two Runtime-Error bugs of the bundled run fixture agree. -/
theorem c8_runtime_log_errors_to_bugs :
    (∀ (missing : List MissingFinding) (deviations : List DeviationFinding)
        (mismatches : List MismatchFinding) (quality : List QualityFinding)
        (log : RuntimeLog) (trace : UIFlowTrace),
      (classify missing deviations mismatches quality log trace).filter
          (fun b => b.category == "Runtime Error") =
        mapWithCounter mkLogErrorBug
          (missing.length + deviations.length + mismatches.length + quality.length)
          log.errors) ∧
    (∀ (n : Nat) (l : List LogEntry),
      (mapWithCounter mkLogErrorBug n l).length = l.length) ∧
    (∀ (n : Nat) (e : LogEntry),
      (mkLogErrorBug n e).category = "Runtime Error" ∧
      (mkLogErrorBug n e).confidence = 0.9 ∧
      (mkLogErrorBug n e).severity = levelSeverity e.level) ∧
    levelSeverity .error = .critical ∧
    levelSeverity .warning = .major ∧
    (fixesSummary.bugs.filter (fun b => b.category == "Runtime Error")).map
        (fun b => (b.id, b.severity, b.confidence)) =
      [("log_error_11", Severity.critical, 0.9), ("log_error_12", Severity.major, 0.9)] := by
  refine ⟨?_, mapWithCounter_length mkLogErrorBug, fun n e => ⟨rfl, rfl, rfl⟩,
    rfl, rfl, by rfl⟩
  intro missing deviations mismatches quality log trace
  simp only [classify, List.filter_append]
  rw [filter_mapWithCounter_neg mkMissingBug _ (fun n a => rfl),
    filter_mapWithCounter_neg mkGapBug _ (fun n a => rfl),
    filter_mapWithCounter_neg mkMismatchBug _ (fun n a => rfl),
    filter_mapWithCounter_neg mkQualityBug _ (fun n a => rfl),
    filter_mapWithCounter_pos mkLogErrorBug _ (fun n a => rfl),
    filter_mapWithCounter_neg mkPerfBug _ (fun n a => rfl),
    filter_mapWithCounter_neg mkUIBug _ (fun n a => rfl)]
  simp

/-- C4: in every run, each synthesized Fix's `bug_id` names a Bug of the
same run, and no two Fixes of a run share a `bug_id` (given that bug ids
are distinct, which C7 establishes); the bundled run fixture satisfies
both parts. -/
theorem c4_fix_referential_integrity :
    (∀ (templates : String → Option FixTemplate) (bugs : List CBug),
      (bugs.map (fun b => b.id)).Nodup →
        (∀ f ∈ bugs.filterMap (synthesize templates),
            f.bug_id ∈ bugs.map (fun b => b.id)) ∧
        ((bugs.filterMap (synthesize templates)).map (fun f => f.bug_id)).Nodup) ∧
    fixesSummary.fixes.all
        (fun f => fixesSummary.bugs.any (fun b => b.id == f.bug_id)) = true ∧
    (fixesSummary.fixes.map (fun f => f.bug_id)).Nodup := by
  refine ⟨?_, by decide, by decide⟩
  intro templates bugs h
  refine ⟨?_, (synthesize_bugIds_sublist templates bugs).nodup h⟩
  intro f hf
  exact (synthesize_bugIds_sublist templates bugs).subset
    (List.mem_map_of_mem _ hf)

/-- A sample template table for instantiating `c4_fix_referential_integrity`:
only "Implementation Gap" bugs have a generator. -/
def sampleTemplates : String → Option FixTemplate :=
  fun c =>
    if c == "Implementation Gap" then
      some { original := ["fetch(url).then(res => res.json())"]
           , replacement := ["fetch(url)", "  .then(res => res.json())"] }
    else none

/-- A sample classified bug list for instantiating
`c4_fix_referential_integrity`. -/
def sampleBugs : List CBug :=
  [ mkMissingBug 0
      { name := "User Authentication"
      , description := "Complete login and registration system"
      , file_path := some "src/components/Auth.tsx" }
  , mkGapBug 1
      { feature := "Dashboard"
      , description := "Missing data fetching logic"
      , file_path := some "src/components/Dashboard.tsx"
      , line_number := some 45 } ]

/-- Witness: `c4_fix_referential_integrity` applied to a concrete run. -/
theorem c4_fix_referential_integrity_witness :
    (∀ f ∈ sampleBugs.filterMap (synthesize sampleTemplates),
        f.bug_id ∈ sampleBugs.map (fun b => b.id)) ∧
    ((sampleBugs.filterMap (synthesize sampleTemplates)).map
        (fun f => f.bug_id)).Nodup :=
  c4_fix_referential_integrity.1 sampleTemplates sampleBugs (by decide)

/-- C6: every synthesized Fix renders as a unified diff whose header
names the file and the start_line-end_line range, followed by one "-"
line per original-snippet line and one "+" line per replacement-snippet
line, with `lines_changed` equal to the number of replacement lines; the
rendering of the gap_5 Fix reproduces the bundled patch file
`src/test_fixes/gap_5_20250717_093731.patch` byte for byte, and the run
fixture records lines_changed = 14 for gap_5. -/
theorem c6_unified_diff_rendering :
    (∀ f : SynthFix,
      (renderDiff f)[1]? = some ("# File: " ++ f.file_path) ∧
      (renderDiff f)[2]? =
        some ("# Lines: " ++ toString f.start_line ++ "-" ++ toString f.end_line) ∧
      (renderDiff f).drop 7 =
        f.original.map (fun l => "-" ++ l) ++ f.replacement.map (fun l => "+" ++ l) ∧
      linesChanged f = f.replacement.length) ∧
    renderDiff gap5Fix = gap5PatchLines ∧
    linesChanged gap5Fix = 14 ∧
    fixesSummary.fixes.any
        (fun fx => fx.bug_id == "gap_5" && fx.lines_changed == 14 &&
          fx.start_line == 123 && fx.end_line == 124) = true :=
  ⟨fun f => ⟨rfl, rfl, rfl, rfl⟩, by rfl, rfl, by decide⟩

/-- A concrete uploaded code file for instantiating the front-end
theorems. -/
def sampleCodeFile : UploadedFile :=
  { id := "code-1752744000000-0", name := "App.tsx", type := "code"
  , size := 2048, status := "uploaded", url := some "https://storage/app.tsx" }

/-- C9: whenever ProjectUpload.startAnalysis completes (passes its
early-return guard), the produced analysis result contains exactly the
three hard-coded bugs bug-1, bug-2, bug-3 and exactly the two hard-coded
fixes for bug-1 and bug-2, whatever the specification text and uploaded
files were. -/
theorem c9_analysis_result_bugs_and_fixes_fixed :
    ∀ (originalSpec enhancedSpec : String) (uploadedFiles : List UploadedFile)
      (now : Nat) (nowISO : String) (r : AnalysisResult),
      (startAnalysis originalSpec enhancedSpec uploadedFiles now nowISO).result =
          some r →
        r.bugs.map (fun b => b.id) = ["bug-1", "bug-2", "bug-3"] ∧
        r.fixes.map (fun f => f.bugId) = ["bug-1", "bug-2"] := by
  intro originalSpec enhancedSpec uploadedFiles now nowISO r h
  simp only [startAnalysis] at h
  split at h
  · simp at h
  · simp only [Option.some.injEq] at h
    subst h
    exact ⟨rfl, rfl⟩

/-- Witness: `c9_analysis_result_bugs_and_fixes_fixed` at a concrete
invocation. -/
theorem c9_analysis_result_bugs_and_fixes_fixed_witness :
    (mkAnalysisResult "Users can log in and browse products" "" [sampleCodeFile]
        1752744000000 "2025-07-17T09:20:00.000Z").bugs.map (fun b => b.id) =
      ["bug-1", "bug-2", "bug-3"] ∧
    (mkAnalysisResult "Users can log in and browse products" "" [sampleCodeFile]
        1752744000000 "2025-07-17T09:20:00.000Z").fixes.map (fun f => f.bugId) =
      ["bug-1", "bug-2"] :=
  c9_analysis_result_bugs_and_fixes_fixed
    "Users can log in and browse products" "" [sampleCodeFile]
    1752744000000 "2025-07-17T09:20:00.000Z" _ rfl

/-- C10: if the original specification text is empty or whitespace-only,
or no file has been uploaded, ProjectUpload.startAnalysis returns
immediately: no analysis result and no notification. -/
theorem c10_start_analysis_guard :
    ∀ (originalSpec enhancedSpec : String) (uploadedFiles : List UploadedFile)
      (now : Nat) (nowISO : String),
      (originalSpec.data.all (fun c => c.isWhitespace) = true ∨ uploadedFiles = []) →
        startAnalysis originalSpec enhancedSpec uploadedFiles now nowISO =
          { result := none, notifications := [] } := by
  intro originalSpec enhancedSpec uploadedFiles now nowISO h
  have hg : (originalSpec.data.all (fun c => c.isWhitespace) ||
      uploadedFiles.length == 0) = true := by
    rcases h with h | h
    · simp [h]
    · subst h; simp
  rw [startAnalysis, if_pos hg]

/-- Witness: `c10_start_analysis_guard` on a whitespace-only
specification. -/
theorem c10_start_analysis_guard_witness :
    startAnalysis "   " "" [sampleCodeFile] 1752744000000 "2025-07-17T09:20:00.000Z" =
      { result := none, notifications := [] } :=
  c10_start_analysis_guard "   " "" [sampleCodeFile] 1752744000000
    "2025-07-17T09:20:00.000Z" (Or.inl (by decide))

/-- C2 counterexample: two startAnalysis invocations on identical
specification text, enhanced-spec state and uploaded files, but at
successive clock readings, produce different analysis results — the
result id embeds `Date.now()`. -/
theorem c2_determinism_counterexample :
    (startAnalysis "Users can log in" "" [sampleCodeFile] 0 "T").result ≠
      (startAnalysis "Users can log in" "" [sampleCodeFile] 1 "T").result ∧
    ((startAnalysis "Users can log in" "" [sampleCodeFile] 0 "T").result).map
        (fun r => r.id) = some "analysis-0" ∧
    ((startAnalysis "Users can log in" "" [sampleCodeFile] 1 "T").result).map
        (fun r => r.id) = some "analysis-1" := by
  refine ⟨?_, rfl, rfl⟩
  intro h
  have h2 := congrArg (Option.map (fun r => r.id)) h
  have e0 : ((startAnalysis "Users can log in" "" [sampleCodeFile] 0 "T").result).map
      (fun r => r.id) = some "analysis-0" := rfl
  have e1 : ((startAnalysis "Users can log in" "" [sampleCodeFile] 1 "T").result).map
      (fun r => r.id) = some "analysis-1" := rfl
  rw [e0, e1] at h2
  exact absurd (Option.some.inj h2) (by decide)

/-- C2 amended: startAnalysis is deterministic up to the clock — two
invocations on identical inputs agree on everything except the
clock-derived `id` and `timestamp` fields (in particular the bugs and
fixes lists, and the emitted notifications, are identical). -/
theorem c2_determinism_modulo_clock :
    ∀ (originalSpec enhancedSpec : String) (uploadedFiles : List UploadedFile)
      (t1 t2 : Nat) (iso1 iso2 : String),
      ((startAnalysis originalSpec enhancedSpec uploadedFiles t1 iso1).result).map
          stripRunId =
        ((startAnalysis originalSpec enhancedSpec uploadedFiles t2 iso2).result).map
          stripRunId ∧
      (startAnalysis originalSpec enhancedSpec uploadedFiles t1 iso1).notifications =
        (startAnalysis originalSpec enhancedSpec uploadedFiles t2 iso2).notifications := by
  intro originalSpec enhancedSpec uploadedFiles t1 t2 iso1 iso2
  by_cases hg : (originalSpec.data.all (fun c => c.isWhitespace) ||
      uploadedFiles.length == 0) = true
  · refine ⟨?_, ?_⟩ <;> simp [startAnalysis, hg]
  · refine ⟨?_, ?_⟩ <;> simp [startAnalysis, hg, stripRunId, mkAnalysisResult]

/-- The analysis data a Dashboard holds right after a completed analysis
run, used to exercise the fix-review handlers. -/
def sampleAnalysisData : AnalysisResult :=
  mkAnalysisResult "Users can log in" "" [sampleCodeFile] 0 "2025-07-17T09:20:00.000Z"

/-- C5 counterexample: fix-1 starts pending, handleRejectFix marks it
rejected, and a subsequent handleApplyFix on the same fix id sets it to
applied — a rejected Fix is later set to applied, so rejected is not
terminal. -/
theorem c5_terminal_status_counterexample :
    sampleAnalysisData.fixes.map (fun f => (f.id, f.status)) =
      [("fix-1", "pending"), ("fix-2", "pending")] ∧
    (handleRejectFix "fix-1" (some sampleAnalysisData)).map
        (fun d => d.fixes.map (fun f => (f.id, f.status))) =
      some [("fix-1", "rejected"), ("fix-2", "pending")] ∧
    (handleApplyFix "fix-1" (handleRejectFix "fix-1" (some sampleAnalysisData))).map
        (fun d => d.fixes.map (fun f => (f.id, f.status))) =
      some [("fix-1", "applied"), ("fix-2", "pending")] :=
  ⟨rfl, rfl, rfl⟩

/-- C5 amended: a Fix's status starts at pending, but the Dashboard
handlers set the status of the matching fix to applied resp. rejected
unconditionally — whatever its current status — so applied and rejected
are not terminal. -/
theorem c5_status_transitions :
    (∀ (originalSpec enhancedSpec : String) (uploadedFiles : List UploadedFile)
        (now : Nat) (nowISO : String),
      (mkAnalysisResult originalSpec enhancedSpec uploadedFiles now nowISO).fixes.map
          (fun f => f.status) = ["pending", "pending"]) ∧
    (∀ (fixId : String) (d : AnalysisResult),
      (handleApplyFix fixId (some d)).map
          (fun x => x.fixes.map (fun f => f.status)) =
        some (d.fixes.map (fun f => if f.id == fixId then "applied" else f.status)) ∧
      (handleRejectFix fixId (some d)).map
          (fun x => x.fixes.map (fun f => f.status)) =
        some (d.fixes.map (fun f => if f.id == fixId then "rejected" else f.status))) ∧
    (∀ fixId : String, handleApplyFix fixId none = none) ∧
    (∀ fixId : String, handleRejectFix fixId none = none) := by
  refine ⟨fun _ _ _ _ _ => rfl, ?_, fun _ => rfl, fun _ => rfl⟩
  intro fixId d
  constructor
  · simp only [handleApplyFix, Option.map_some', Option.some.injEq, List.map_map]
    refine List.map_congr_left ?_
    intro f _
    by_cases hc : f.id = fixId <;> simp [hc]
  · simp only [handleRejectFix, Option.map_some', Option.some.injEq, List.map_map]
    refine List.map_congr_left ?_
    intro f _
    by_cases hc : f.id = fixId <;> simp [hc]
